import Mathlib

/-!
Verification of the WebVR device-arbitration actor
(`components/vr/webvr_thread.rs`).

The actor (`WebVRThread`) owns:
  * `contexts : HashSet<PipelineId>` — registered contexts,
  * `presenting : HashMap<u64, PipelineId>` — device id → presenting context,
  * `polling_events : bool` — whether the poll-events loop is scheduled,
  * `service : VRServiceManager` — the hardware registry (external library).

We embed the actor state and its message handlers shallowly.  The
`VRServiceManager` and `VRDevice` internals live in the external `rust-webvr`
library, not in this repository, so they are modelled abstractly from the
spec (§4.1): a fixed set of device ids, an `initialized` flag, a per-device
mutable pose state (mutated only by `reset_pose`), and a queue of pending
hardware events drained by `poll_events`.  Everything the handlers in
`webvr_thread.rs` do with the service goes through this interface.

Pipeline ids and device ids are opaque identifiers; we model both as `Nat`
(device ids are `u64` in the source, but no arithmetic is ever performed on
them, so overflow cannot arise).  The `near`/`far` clip planes are `f64`
values passed through opaquely to the device; we model them as `Nat` tokens.
-/

namespace WebVR

/-- Association-list map with the extensional behavior of `HashMap`:
`find?` returns the value at a key, `insert` replaces any previous binding,
`erase` removes the binding.  `insert` and `erase` keep at most one binding
per key, as a `HashMap` does. -/
def mapErase (m : List (Nat × Nat)) (k : Nat) : List (Nat × Nat) :=
  m.filter (fun e => e.1 ≠ k)

/-- `HashMap::insert`: bind `k` to `v`, replacing any previous binding. -/
def mapInsert (m : List (Nat × Nat)) (k v : Nat) : List (Nat × Nat) :=
  (k, v) :: mapErase m k

/-- `HashMap::get`: the value bound to `k`, if any. -/
def mapFind : List (Nat × Nat) → Nat → Option Nat
  | [], _ => none
  | e :: rest, k => if e.1 = k then some e.2 else mapFind rest k

/-- `HashSet::insert` on a duplicate-free list model. -/
def setInsert (s : List Nat) (c : Nat) : List Nat :=
  if c ∈ s then s else c :: s

/-- `HashSet::remove`. -/
def setRemove (s : List Nat) (c : Nat) : List Nat :=
  s.filter (fun x => x ≠ c)

/-- Modelled from the spec: the Device Registry / `VRServiceManager` of the
external `rust-webvr` library (spec §4.1).  `devices` is the set of known
device ids (`get_device` succeeds exactly on these); `initialized` is what
`is_initialized()` reports; `poseState` is the per-device mutable pose
reference frame, changed only by `reset_pose` (modelled as a counter);
`pendingEvents` is what the hardware layer has queued for
`poll_events()` to drain (abstract event codes). -/
structure VRServiceManager where
  devices : List Nat
  initialized : Bool
  poseState : List (Nat × Nat)
  pendingEvents : List Nat
deriving DecidableEq, Repr

/-- `VRServiceManager::get_device(device_id)`: the device handle (its id)
when the id is known, `None` otherwise. -/
def get_device (svc : VRServiceManager) (device_id : Nat) : Option Nat :=
  if device_id ∈ svc.devices then some device_id else none

/-- Modelled from the spec: the pose component of a device's state
(spec §4.2/§6); `reset_pose` resets the pose reference frame, modelled as
bumping this counter. -/
def poseOf (svc : VRServiceManager) (device_id : Nat) : Nat :=
  (mapFind svc.poseState device_id).getD 0

/-- Modelled from the spec: `VRDevice::reset_pose()` mutates the device's
pose reference frame. -/
def reset_pose (svc : VRServiceManager) (device_id : Nat) : VRServiceManager :=
  { svc with poseState := mapInsert svc.poseState device_id (poseOf svc device_id + 1) }

/-- Modelled from the spec: `VRDevice::display_data()`, the current snapshot
of a device (id plus its current pose state token). -/
structure VRDisplayData where
  did : Nat
  pose : Nat
deriving DecidableEq, Repr

/-- Modelled from the spec: `VRDevice::inmediate_frame_data(near, far)` —
frame data derived from the device's current state, bounded by the
`near`/`far` clip planes (opaque tokens here). -/
structure VRFrameData where
  did : Nat
  pose : Nat
  near : Nat
  far : Nat
deriving DecidableEq, Repr

/-- `device.borrow().display_data()`. -/
def display_data (svc : VRServiceManager) (device_id : Nat) : VRDisplayData :=
  ⟨device_id, poseOf svc device_id⟩

/-- `device.borrow().inmediate_frame_data(near, far)`. -/
def inmediate_frame_data (svc : VRServiceManager) (device_id near far : Nat) : VRFrameData :=
  ⟨device_id, poseOf svc device_id, near, far⟩

/-- The error strings of `webvr_thread.rs` (`WebVRResult` errors are
strings).  `access_check` returns `Err("Device owned by another context")`
— the `DeviceBusy` error of the spec. -/
def busyErr : String := "Device owned by another context"

/-- `access_check` returns `Err("Device not found")` — the `DeviceNotFound`
error of the spec. -/
def notFoundErr : String := "Device not found"

/-- The display events (`VRDisplayEvent`) that reach the Event Fan-out:
`PresentChange(display_data, presenting)` built by the present handlers,
and hardware-originated events forwarded verbatim by `poll_events`
(modelled by their code). -/
inductive VRDisplayEvent where
  | presentChange (data : VRDisplayData) (presenting : Bool)
  | hardware (code : Nat)
deriving DecidableEq, Repr

/-- The actor state: the fields of `struct WebVRThread` that the message
handlers read or write (the ipc channel endpoints carry no state). -/
structure WebVRState where
  service : VRServiceManager
  contexts : List Nat
  polling_events : Bool
  presenting : List (Nat × Nat)
deriving DecidableEq, Repr

/-- `WebVRThread::new`: empty context set, polling flag down, empty
ownership map, over a given hardware service. -/
def initState (svc : VRServiceManager) : WebVRState :=
  { service := svc
    contexts := []
    polling_events := false
    presenting := [] }

/-- The inbound messages of `WebVRMsg` (reply-channel endpoints are modelled
by the reply list in `StepOutput`; `ExitPresent` carries
`Option<IpcSender>`, modelled by the `hasSender` flag). -/
inductive WebVRMsg where
  | registerContext (ctx : Nat)
  | unregisterContext (ctx : Nat)
  | pollEvents
  | getVRDisplays
  | getFrameData (ctx device_id near far : Nat)
  | resetPose (ctx device_id : Nat)
  | requestPresent (ctx device_id : Nat)
  | exitPresent (ctx device_id : Nat) (hasSender : Bool)
  | exit
deriving DecidableEq, Repr

deriving instance DecidableEq for Except

/-- One value sent on a message's reply channel (typed per message kind,
as in `WebVRResult<T>`). -/
inductive WebVRReply where
  | displays (r : Except String (List VRDisplayData))
  | frame (r : Except String VRFrameData)
  | display (r : Except String VRDisplayData)
  | unit (r : Except String Unit)
  | poll (b : Bool)
deriving DecidableEq, Repr

/-- Whether a reply carries an error value. -/
def WebVRReply.isErr : WebVRReply → Bool
  | .displays (.error _) => true
  | .frame (.error _) => true
  | .display (.error _) => true
  | .unit (.error _) => true
  | _ => false

/-- The observable output of processing one message: the values sent on the
message's reply channel (in order), and the events fanned out via the
constellation channel — each fan-out is `(pipeline_ids, event)` exactly as
`notify_event` / `poll_events` send `WebVREvent(pipeline_ids, event)`. -/
structure StepOutput where
  reply : List WebVRReply
  fanout : List (List Nat × VRDisplayEvent)
deriving DecidableEq, Repr

/-- `WebVRThread::access_check`:
```rust
if *self.presenting.get(&device_id).unwrap_or(&pipeline) != pipeline {
    return Err("Device owned by another context");
}
self.service.get_device(device_id).ok_or("Device not found")
``` -/
def access_check (s : WebVRState) (pipeline device_id : Nat) : Except String Nat :=
  if (mapFind s.presenting device_id).getD pipeline ≠ pipeline then
    .error busyErr
  else
    match get_device s.service device_id with
    | some d => .ok d
    | none => .error notFoundErr

/-- `handle_register_context`: `self.contexts.insert(ctx)`. -/
def handle_register_context (s : WebVRState) (ctx : Nat) : WebVRState :=
  { s with contexts := setInsert s.contexts ctx }

/-- `handle_unregister_context`: `self.contexts.remove(&ctx)`. -/
def handle_unregister_context (s : WebVRState) (ctx : Nat) : WebVRState :=
  { s with contexts := setRemove s.contexts ctx }

/-- `schedule_poll_events`: if the service is initialized and no polling
loop is scheduled, raise the flag and spawn the poll loop (the spawned
thread itself only ever sends `PollEvents` messages back; its local loop is
not part of the actor state). -/
def schedule_poll_events (s : WebVRState) : WebVRState :=
  if s.service.initialized && !s.polling_events then
    { s with polling_events := true }
  else s

/-- `notify_event`: one constellation send carrying the current registered
contexts and the event. -/
def notify_event (s : WebVRState) (event : VRDisplayEvent) :
    List (List Nat × VRDisplayEvent) :=
  [(s.contexts, event)]

/-- `handle_get_displays`: list every device's `display_data()`, reply
`Ok(displays)`. -/
def handle_get_displays (s : WebVRState) : WebVRState × StepOutput :=
  (s, { reply := [.displays (.ok (s.service.devices.map (display_data s.service)))]
        fanout := [] })

/-- `handle_framedata`: access check, then reply with the device's
immediate frame data, or with the error. -/
def handle_framedata (s : WebVRState) (pipeline device_id near far : Nat) :
    WebVRState × StepOutput :=
  match access_check s pipeline device_id with
  | .ok d =>
      (s, { reply := [.frame (.ok (inmediate_frame_data s.service d near far))]
            fanout := [] })
  | .error msg =>
      (s, { reply := [.frame (.error msg)], fanout := [] })

/-- `handle_reset_pose`: access check, then mutate the device's pose and
reply with the refreshed `display_data()`, or reply with the error. -/
def handle_reset_pose (s : WebVRState) (pipeline device_id : Nat) :
    WebVRState × StepOutput :=
  match access_check s pipeline device_id with
  | .ok d =>
      let svc := reset_pose s.service d
      ({ s with service := svc },
       { reply := [.display (.ok (display_data svc d))], fanout := [] })
  | .error msg =>
      (s, { reply := [.display (.error msg)], fanout := [] })

/-- `handle_request_present`: access check; on success insert
`(device_id → pipeline)` into `presenting`, reply `Ok(())`, and fan out
`PresentChange(display_data, true)`; on failure reply the error. -/
def handle_request_present (s : WebVRState) (pipeline device_id : Nat) :
    WebVRState × StepOutput :=
  match access_check s pipeline device_id with
  | .ok d =>
      let s' := { s with presenting := mapInsert s.presenting device_id pipeline }
      let data := display_data s'.service d
      (s', { reply := [.unit (.ok ())]
             fanout := notify_event s' (.presentChange data true) })
  | .error msg =>
      (s, { reply := [.unit (.error msg)], fanout := [] })

/-- `handle_exit_present`: access check; on success remove the ownership
entry, reply `Ok(())` when a reply channel was supplied, and fan out
`PresentChange(display_data, false)`; on failure reply the error when a
channel was supplied. -/
def handle_exit_present (s : WebVRState) (pipeline device_id : Nat)
    (hasSender : Bool) : WebVRState × StepOutput :=
  match access_check s pipeline device_id with
  | .ok d =>
      let s' := { s with presenting := mapErase s.presenting device_id }
      let data := display_data s'.service d
      (s', { reply := if hasSender then [.unit (.ok ())] else []
             fanout := notify_event s' (.presentChange data false) })
  | .error msg =>
      (s, { reply := if hasSender then [.unit (.error msg)] else []
            fanout := [] })

/-- `poll_events`: drain the service's queued hardware events; if any, fan
each out to every registered context; recompute the polling flag as
`contexts.len() > 0` and reply it. -/
def poll_events (s : WebVRState) : WebVRState × StepOutput :=
  let events := s.service.pendingEvents
  let fan :=
    if events.length > 0 then
      events.map (fun e => (s.contexts, VRDisplayEvent.hardware e))
    else []
  let polling := decide (s.contexts.length > 0)
  ({ s with
      service := { s.service with pendingEvents := [] }
      polling_events := polling },
   { reply := [.poll polling], fanout := fan })

/-- One iteration of the dispatcher loop in `start()`: dispatch on the
message exactly as the `match msg` there does (the `Exit` arm, which breaks
the loop, is handled by `run`). -/
def step (s : WebVRState) : WebVRMsg → WebVRState × StepOutput
  | .registerContext ctx =>
      (schedule_poll_events (handle_register_context s ctx),
       { reply := [], fanout := [] })
  | .unregisterContext ctx =>
      (handle_unregister_context s ctx, { reply := [], fanout := [] })
  | .pollEvents => poll_events s
  | .getVRDisplays =>
      (schedule_poll_events (handle_get_displays s).1, (handle_get_displays s).2)
  | .getFrameData ctx device_id near far =>
      handle_framedata s ctx device_id near far
  | .resetPose ctx device_id => handle_reset_pose s ctx device_id
  | .requestPresent ctx device_id => handle_request_present s ctx device_id
  | .exitPresent ctx device_id hasSender =>
      handle_exit_present s ctx device_id hasSender
  | .exit => (s, { reply := [], fanout := [] })

/-- The dispatcher loop of `start()`: process messages in order; an `Exit`
message breaks the loop, leaving the rest unprocessed. -/
def run (s : WebVRState) : List WebVRMsg → WebVRState × List StepOutput
  | [] => (s, [])
  | m :: rest =>
      if m = .exit then (s, [])
      else ((run (step s m).1 rest).1, (step s m).2 :: (run (step s m).1 rest).2)

/-- A state the actor can be in: reached from `initState` over some
hardware service by processing some message sequence. -/
def Reachable (s : WebVRState) : Prop :=
  ∃ (svc : VRServiceManager) (msgs : List WebVRMsg),
    (run (initState svc) msgs).1 = s

/-- Whether a message carries a reply channel on which the handler replies
(`ExitPresent` only when its optional sender is supplied). -/
def hasReplyChannel : WebVRMsg → Bool
  | .pollEvents => true
  | .getVRDisplays => true
  | .getFrameData _ _ _ _ => true
  | .resetPose _ _ => true
  | .requestPresent _ _ => true
  | .exitPresent _ _ hasSender => hasSender
  | _ => false

/-- One dispatcher iteration with the reply channel's liveness made
explicit.  Every handler sends its reply with `sender.send(...).unwrap()`;
when the reply channel is broken (`chanOk = false`) the `unwrap` of the
failed send panics and the dispatcher worker dies: modelled as `none`.
Messages without a live-channel send (no channel, or `ExitPresent` with no
sender) cannot panic this way. -/
def stepChan (s : WebVRState) (m : WebVRMsg) (chanOk : Bool) :
    Option (WebVRState × StepOutput) :=
  if hasReplyChannel m && !chanOk then none else some (step s m)

/-- The dispatcher loop with per-message reply-channel liveness: `none`
when some handler panicked (the worker died; later messages are never
processed). -/
def runChan (s : WebVRState) : List (WebVRMsg × Bool) → Option (WebVRState × List StepOutput)
  | [] => some (s, [])
  | mok :: rest =>
      if mok.1 = .exit then some (s, [])
      else
        match stepChan s mok.1 mok.2 with
        | none => none
        | some r => (runChan r.1 rest).map (fun t => (t.1, r.2 :: t.2))

/-! ### Map lemmas -/

theorem mapFind_mapErase (m : List (Nat × Nat)) (k k' : Nat) :
    mapFind (mapErase m k) k' = if k' = k then none else mapFind m k' := by
  induction m with
  | nil => simp [mapErase, mapFind]
  | cons e rest ih =>
    by_cases hek : e.1 = k <;> by_cases hk : k' = k
    · simp_all [mapErase, mapFind, List.filter_cons]
    · have hkk : ¬ k = k' := fun h => hk h.symm
      simp_all [mapErase, mapFind, List.filter_cons]
    · simp_all [mapErase, mapFind, List.filter_cons]
    · simp_all [mapErase, mapFind, List.filter_cons]

theorem mapFind_mapInsert (m : List (Nat × Nat)) (k v k' : Nat) :
    mapFind (mapInsert m k v) k' = if k' = k then some v else mapFind m k' := by
  by_cases hk : k' = k
  · simp [mapInsert, mapFind, hk, mapFind_mapErase]
  · have hkk : ¬ k = k' := fun h => hk h.symm
    simp [mapInsert, mapFind, hk, hkk, mapFind_mapErase]

theorem mapErase_mapErase (m : List (Nat × Nat)) (k : Nat) :
    mapErase (mapErase m k) k = mapErase m k := by
  simp [mapErase, List.filter_filter]

theorem mapErase_mapInsert (m : List (Nat × Nat)) (k v : Nat) :
    mapErase (mapInsert m k v) k = mapErase m k := by
  show mapErase ((k, v) :: mapErase m k) k = mapErase m k
  simp [mapErase, List.filter_cons, List.filter_filter]

theorem mapInsert_idem (m : List (Nat × Nat)) (k v : Nat) :
    mapInsert (mapInsert m k v) k v = mapInsert m k v := by
  show (k, v) :: mapErase (mapInsert m k v) k = mapInsert m k v
  rw [mapErase_mapInsert]
  rfl

theorem countP_mapInsert (m : List (Nat × Nat)) (k v : Nat) :
    (mapInsert m k v).countP (fun e => e.1 = k) = 1 := by
  have h : (mapErase m k).countP (fun e => e.1 = k) = 0 := by
    rw [List.countP_eq_zero]
    intro e he
    have := List.of_mem_filter he
    simpa using this
  simp [mapInsert, List.countP_cons, h]

/-! ### `access_check` characterizations -/

theorem access_check_ok_iff (s : WebVRState) (C D d : Nat) :
    access_check s C D = .ok d ↔
      d = D ∧ D ∈ s.service.devices ∧
      (mapFind s.presenting D = none ∨ mapFind s.presenting D = some C) := by
  unfold access_check get_device
  rcases hf : mapFind s.presenting D with _ | A
  · by_cases hD : D ∈ s.service.devices <;> simp [hf, hD, eq_comm]
  · by_cases hA : A = C
    · subst hA
      by_cases hD : D ∈ s.service.devices <;> simp [hf, hD, eq_comm]
    · simp [hf, hA, Ne.symm hA]

theorem get_device_some_iff (svc : VRServiceManager) (D : Nat) :
    get_device svc D = some D ↔ D ∈ svc.devices := by
  unfold get_device
  by_cases h : D ∈ svc.devices <;> simp [h]

theorem get_device_none_iff (svc : VRServiceManager) (D : Nat) :
    get_device svc D = none ↔ D ∉ svc.devices := by
  unfold get_device
  by_cases h : D ∈ svc.devices <;> simp [h]

theorem access_check_busy (s : WebVRState) (C D A : Nat)
    (hf : mapFind s.presenting D = some A) (hA : A ≠ C) :
    access_check s C D = .error busyErr := by
  unfold access_check
  simp [hf, hA]

theorem access_check_unowned (s : WebVRState) (C D : Nat)
    (hf : mapFind s.presenting D = none) :
    access_check s C D =
      if D ∈ s.service.devices then .ok D else .error notFoundErr := by
  unfold access_check get_device
  by_cases hD : D ∈ s.service.devices <;> simp [hf, hD]

/-! ### Step-level facts -/

theorem step_devices (s : WebVRState) (m : WebVRMsg) :
    (step s m).1.service.devices = s.service.devices := by
  cases m with
  | registerContext ctx =>
      simp only [step, schedule_poll_events, handle_register_context]
      split <;> rfl
  | unregisterContext ctx => rfl
  | pollEvents => rfl
  | getVRDisplays =>
      simp only [step, schedule_poll_events, handle_get_displays]
      split <;> rfl
  | getFrameData c d n f =>
      simp only [step, handle_framedata]
      cases access_check s c d <;> rfl
  | resetPose c d =>
      simp only [step, handle_reset_pose]
      cases access_check s c d <;> rfl
  | requestPresent c d =>
      simp only [step, handle_request_present]
      cases access_check s c d <;> rfl
  | exitPresent c d hs =>
      simp only [step, handle_exit_present]
      cases access_check s c d <;> rfl
  | exit => rfl

/-- Ownership is stable: if context `A` holds device `D` and the message is
not an `ExitPresent(A, D)` (an `ExitPresent` for `D` by any other context
fails the access check and releases nothing), then `A` still holds `D`
afterwards. -/
theorem step_presenting_owner (s : WebVRState) (m : WebVRMsg) (A D : Nat)
    (hf : mapFind s.presenting D = some A)
    (hm : ∀ C hs, m = WebVRMsg.exitPresent C D hs → C ≠ A) :
    mapFind (step s m).1.presenting D = some A := by
  cases m with
  | registerContext ctx =>
      simp only [step, schedule_poll_events, handle_register_context]
      split <;> exact hf
  | unregisterContext ctx => exact hf
  | pollEvents => exact hf
  | getVRDisplays =>
      simp only [step, schedule_poll_events, handle_get_displays]
      split <;> exact hf
  | getFrameData c d n f =>
      simp only [step, handle_framedata]
      cases access_check s c d <;> exact hf
  | resetPose c d =>
      simp only [step, handle_reset_pose]
      cases access_check s c d <;> exact hf
  | requestPresent c d =>
      simp only [step, handle_request_present]
      cases hac : access_check s c d with
      | error e => exact hf
      | ok dd =>
        simp only [mapFind_mapInsert]
        by_cases hD : D = d
        · subst hD
          rcases (access_check_ok_iff s c D dd).1 hac with ⟨-, -, hnone | hC⟩
          · rw [hnone] at hf; exact absurd hf (by simp)
          · rw [hC] at hf
            simpa [if_pos rfl] using hf
        · simpa [if_neg hD] using hf
  | exitPresent c d hs =>
      simp only [step, handle_exit_present]
      cases hac : access_check s c d with
      | error e => exact hf
      | ok dd =>
        simp only [mapFind_mapErase]
        by_cases hD : D = d
        · subst hD
          rcases (access_check_ok_iff s c D dd).1 hac with ⟨-, -, hnone | hC⟩
          · rw [hnone] at hf; exact absurd hf (by simp)
          · rw [hC] at hf
            exact ((hm c hs rfl) (Option.some_injective _ hf)).elim
        · simpa [if_neg hD] using hf
  | exit => exact hf

/-- A device with no ownership entry stays unowned under any message that
is not a `RequestPresent` for it. -/
theorem step_presenting_free (s : WebVRState) (m : WebVRMsg) (D : Nat)
    (hf : mapFind s.presenting D = none)
    (hm : ∀ C, m ≠ WebVRMsg.requestPresent C D) :
    mapFind (step s m).1.presenting D = none := by
  cases m with
  | registerContext ctx =>
      simp only [step, schedule_poll_events, handle_register_context]
      split <;> exact hf
  | unregisterContext ctx => exact hf
  | pollEvents => exact hf
  | getVRDisplays =>
      simp only [step, schedule_poll_events, handle_get_displays]
      split <;> exact hf
  | getFrameData c d n f =>
      simp only [step, handle_framedata]
      cases access_check s c d <;> exact hf
  | resetPose c d =>
      simp only [step, handle_reset_pose]
      cases access_check s c d <;> exact hf
  | requestPresent c d =>
      by_cases hD : D = d
      · exact absurd (hD ▸ rfl) (hm c)
      · simp only [step, handle_request_present]
        cases access_check s c d with
        | error e => exact hf
        | ok dd => simpa [mapFind_mapInsert, if_neg hD] using hf
  | exitPresent c d hs =>
      simp only [step, handle_exit_present]
      cases access_check s c d with
      | error e => exact hf
      | ok dd =>
        by_cases hD : D = d <;>
          simp [mapFind_mapErase, hD, hf]
  | exit => exact hf

theorem run_presenting_owner (s : WebVRState) (msgs : List WebVRMsg) (A D : Nat)
    (hf : mapFind s.presenting D = some A)
    (hm : ∀ m ∈ msgs, ∀ C hs, m = WebVRMsg.exitPresent C D hs → C ≠ A) :
    mapFind (run s msgs).1.presenting D = some A := by
  induction msgs generalizing s with
  | nil => exact hf
  | cons m rest ih =>
    by_cases hex : m = WebVRMsg.exit
    · simpa [run, hex] using hf
    · simp only [run, if_neg hex]
      exact ih _ (step_presenting_owner s m A D hf (hm m (by simp)))
        (fun m' hm' => hm m' (by simp [hm']))

theorem run_presenting_free (s : WebVRState) (msgs : List WebVRMsg) (D : Nat)
    (hf : mapFind s.presenting D = none)
    (hm : ∀ m ∈ msgs, ∀ C, m ≠ WebVRMsg.requestPresent C D) :
    mapFind (run s msgs).1.presenting D = none := by
  induction msgs generalizing s with
  | nil => exact hf
  | cons m rest ih =>
    by_cases hex : m = WebVRMsg.exit
    · simpa [run, hex] using hf
    · simp only [run, if_neg hex]
      exact ih _ (step_presenting_free s m D hf (hm m (by simp)))
        (fun m' hm' => hm m' (by simp [hm']))

/-! ### Reachability invariant: ownership entries name known devices -/

/-- Every device with an ownership entry is known to the registry. -/
def PresentingKnown (s : WebVRState) : Prop :=
  ∀ D A, mapFind s.presenting D = some A → D ∈ s.service.devices

theorem step_presentingKnown (s : WebVRState) (m : WebVRMsg)
    (h : PresentingKnown s) : PresentingKnown (step s m).1 := by
  intro D A hf
  rw [step_devices]
  cases m with
  | registerContext ctx =>
      simp only [step, schedule_poll_events, handle_register_context] at hf
      split at hf <;> exact h D A hf
  | unregisterContext ctx => exact h D A hf
  | pollEvents => exact h D A hf
  | getVRDisplays =>
      simp only [step, schedule_poll_events, handle_get_displays] at hf
      split at hf <;> exact h D A hf
  | getFrameData c d n f =>
      simp only [step, handle_framedata] at hf
      split at hf <;> exact h D A hf
  | resetPose c d =>
      simp only [step, handle_reset_pose] at hf
      split at hf <;> exact h D A hf
  | requestPresent c d =>
      simp only [step, handle_request_present] at hf
      split at hf
      · next dd heq =>
          rw [mapFind_mapInsert] at hf
          by_cases hD : D = d
          · subst hD
            exact ((access_check_ok_iff s c D dd).1 heq).2.1
          · rw [if_neg hD] at hf
            exact h D A hf
      · next e heq => exact h D A hf
  | exitPresent c d hs =>
      simp only [step, handle_exit_present] at hf
      split at hf
      · next dd heq =>
          rw [mapFind_mapErase] at hf
          by_cases hD : D = d
          · rw [if_pos hD] at hf; exact absurd hf (by simp)
          · rw [if_neg hD] at hf
            exact h D A hf
      · next e heq => exact h D A hf
  | exit => exact h D A hf

theorem run_presentingKnown (s : WebVRState) (msgs : List WebVRMsg)
    (h : PresentingKnown s) : PresentingKnown (run s msgs).1 := by
  induction msgs generalizing s with
  | nil => exact h
  | cons m rest ih =>
    by_cases hex : m = WebVRMsg.exit
    · simpa [run, hex] using h
    · simp only [run, if_neg hex]
      exact ih _ (step_presentingKnown s m h)

theorem reachable_presentingKnown (s : WebVRState) (h : Reachable s) :
    PresentingKnown s := by
  obtain ⟨svc, msgs, rfl⟩ := h
  exact run_presentingKnown _ _ (fun D A hf => by simp [initState, mapFind] at hf)

/-- A successful `RequestPresent(C, D)` reply means the ownership map now
binds `D` to `C`. -/
theorem request_present_ok (s : WebVRState) (C D : Nat)
    (h : (step s (.requestPresent C D)).2.reply = [.unit (.ok ())]) :
    mapFind (step s (.requestPresent C D)).1.presenting D = some C := by
  simp only [step, handle_request_present] at h ⊢
  split at h
  · next d heq => simp [mapFind_mapInsert]
  · next e heq => simp at h

/-- A successful `RequestPresent(C, D)` reply means the handler took the
success branch: the ownership map afterwards is exactly
`mapInsert s.presenting D C`. -/
theorem request_present_ok_state (s : WebVRState) (C D : Nat)
    (h : (step s (.requestPresent C D)).2.reply = [.unit (.ok ())]) :
    (step s (.requestPresent C D)).1.presenting = mapInsert s.presenting D C := by
  simp only [step, handle_request_present] at h ⊢
  split at h
  · next d heq => rfl
  · next e heq => simp at h

/-- A successful `ExitPresent(C, D)` reply means the ownership map now has
no entry for `D`. -/
theorem exit_present_ok (s : WebVRState) (C D : Nat)
    (h : (step s (.exitPresent C D true)).2.reply = [.unit (.ok ())]) :
    mapFind (step s (.exitPresent C D true)).1.presenting D = none := by
  simp only [step, handle_exit_present] at h ⊢
  split at h
  · next d heq => simp [mapFind_mapErase]
  · next e heq => simp at h

/-! ### Concrete data for witnesses -/

/-- A small initialized hardware service with a single device, id `1`. -/
def testService : VRServiceManager :=
  { devices := [1], initialized := true, poseState := [], pendingEvents := [] }

/-! ### Claims -/

/-- C1: Mutual exclusion of presenting sessions.  If `RequestPresent(A, D)`
succeeded, and since then no `ExitPresent` for `D` has succeeded — while
`A` owns `D` an `ExitPresent(C, D)` succeeds exactly when `C = A`, so this
is the hypothesis that no intervening message is an `ExitPresent(A, D)` —
then a subsequent `RequestPresent(B, D)` with `B ≠ A` replies with the
`DeviceBusy` error and the ownership map still binds `D` to `A`. -/
theorem C1_requestPresent_mutual_exclusion
    (s : WebVRState) (A B D : Nat) (msgs : List WebVRMsg)
    (hAB : B ≠ A)
    (hfirst : (step s (.requestPresent A D)).2.reply = [.unit (.ok ())])
    (hmsgs : ∀ m ∈ msgs, ∀ C hs, m = WebVRMsg.exitPresent C D hs → C ≠ A) :
    (step (run (step s (.requestPresent A D)).1 msgs).1 (.requestPresent B D)).2.reply
        = [.unit (.error busyErr)] ∧
    mapFind (step (run (step s (.requestPresent A D)).1 msgs).1
        (.requestPresent B D)).1.presenting D = some A := by
  have h1 : mapFind (step s (.requestPresent A D)).1.presenting D = some A :=
    request_present_ok s A D hfirst
  have h2 : mapFind (run (step s (.requestPresent A D)).1 msgs).1.presenting D = some A :=
    run_presenting_owner _ msgs A D h1 hmsgs
  set s2 := (run (step s (.requestPresent A D)).1 msgs).1 with hs2
  have hbusy : access_check s2 B D = .error busyErr :=
    access_check_busy s2 B D A h2 (Ne.symm hAB)
  refine ⟨?_, ?_⟩ <;> simp only [step, handle_request_present] <;> rw [hbusy] <;>
    simp [h2]

/-- Witness for C1 on the one-device service: context 1 presents on
device 1; after no further messages, context 2's request is refused with
`DeviceBusy` and device 1 still belongs to context 1. -/
theorem C1_requestPresent_mutual_exclusion_witness :
    (step (run (step (initState testService) (.requestPresent 1 1)).1 []).1
        (.requestPresent 2 1)).2.reply = [.unit (.error busyErr)] ∧
    mapFind (step (run (step (initState testService) (.requestPresent 1 1)).1 []).1
        (.requestPresent 2 1)).1.presenting 1 = some 1 :=
  C1_requestPresent_mutual_exclusion (initState testService) 1 2 1 []
    (by decide) (by decide) (by simp)

/-- C5: Re-acquisition is idempotent.  For a device `D` known to the
registry, after a successful `RequestPresent(A, D)` an immediately
following `RequestPresent(A, D)` also succeeds, and the ownership map
afterwards has exactly one entry for `D`, binding it to `A` — the same
ownership state as after the first call. -/
theorem C5_requestPresent_idempotent (s : WebVRState) (A D : Nat)
    (hknown : get_device s.service D = some D)
    (hfirst : (step s (.requestPresent A D)).2.reply = [.unit (.ok ())]) :
    (step (step s (.requestPresent A D)).1 (.requestPresent A D)).2.reply
        = [.unit (.ok ())] ∧
    ((step (step s (.requestPresent A D)).1 (.requestPresent A D)).1.presenting.countP
        (fun e => e.1 = D)) = 1 ∧
    mapFind (step (step s (.requestPresent A D)).1
        (.requestPresent A D)).1.presenting D = some A ∧
    (step (step s (.requestPresent A D)).1 (.requestPresent A D)).1.presenting =
      (step s (.requestPresent A D)).1.presenting := by
  have hmem : D ∈ s.service.devices := by
    by_cases hD : D ∈ s.service.devices
    · exact hD
    · simp [get_device, hD] at hknown
  have h1 : mapFind (step s (.requestPresent A D)).1.presenting D = some A :=
    request_present_ok s A D hfirst
  have hpres : (step s (.requestPresent A D)).1.presenting
      = mapInsert s.presenting D A :=
    request_present_ok_state s A D hfirst
  have hdev : (step s (.requestPresent A D)).1.service.devices = s.service.devices :=
    step_devices s _
  set s1 := (step s (.requestPresent A D)).1 with hs1
  have hac : access_check s1 A D = .ok D :=
    (access_check_ok_iff s1 A D D).2 ⟨rfl, by rw [hdev]; exact hmem, Or.inr h1⟩
  refine ⟨?_, ?_, ?_, ?_⟩ <;> simp only [step, handle_request_present] <;>
    rw [hac] <;>
    simp [countP_mapInsert, mapFind_mapInsert, hpres, mapInsert_idem]

/-- Witness for C5 on the one-device service: context 1 re-requests
device 1 immediately after acquiring it. -/
theorem C5_requestPresent_idempotent_witness :
    (step (step (initState testService) (.requestPresent 1 1)).1
        (.requestPresent 1 1)).2.reply = [.unit (.ok ())] ∧
    ((step (step (initState testService) (.requestPresent 1 1)).1
        (.requestPresent 1 1)).1.presenting.countP (fun e => e.1 = 1)) = 1 ∧
    mapFind (step (step (initState testService) (.requestPresent 1 1)).1
        (.requestPresent 1 1)).1.presenting 1 = some 1 ∧
    (step (step (initState testService) (.requestPresent 1 1)).1
        (.requestPresent 1 1)).1.presenting =
      (step (initState testService) (.requestPresent 1 1)).1.presenting :=
  C5_requestPresent_idempotent (initState testService) 1 1 (by decide) (by decide)

/-- C6: Frame property of `UnregisterContext`.  Processing
`UnregisterContext(C)` removes `C` from the registered-context set and
changes nothing else: the service (device state included), the polling
flag, and every entry of the presentation-ownership map — including
entries binding devices to `C` — are unchanged, no reply is sent and no
event is fanned out. -/
theorem C6_unregisterContext_frame (s : WebVRState) (C : Nat) :
    (step s (.unregisterContext C)).1
        = { s with contexts := setRemove s.contexts C } ∧
    (step s (.unregisterContext C)).1.presenting = s.presenting ∧
    (step s (.unregisterContext C)).1.polling_events = s.polling_events ∧
    (step s (.unregisterContext C)).1.service = s.service ∧
    (step s (.unregisterContext C)).2.reply = [] ∧
    (step s (.unregisterContext C)).2.fanout = [] :=
  ⟨rfl, rfl, rfl, rfl, rfl, rfl⟩

/-- C3 counterexample: device 1 is known to the registry and unowned, and
context 7 never held a presenting session on it; yet `ExitPresent(7, 1)`
replies `Ok(())` — it does not fail, with `NotPresenting` or otherwise
(no `NotPresenting` error exists in the code at all). -/
theorem C3_exitPresent_notPresenting_counterexample :
    mapFind (initState testService).presenting 1 = none ∧
    get_device (initState testService).service 1 = some 1 ∧
    (step (initState testService) (.exitPresent 7 1 true)).2.reply
      = [.unit (.ok ())] := by
  refine ⟨rfl, rfl, ?_⟩
  decide

/-- C3 (amended): for a context `A` that does not hold the presenting
session on `D`, `ExitPresent(A, D)` fails with `DeviceBusy` when another
context owns `D`, fails with `DeviceNotFound` when `D` is unknown and
unowned, and succeeds (replying `Ok` and leaving no entry for `D`) when
`D` is known and unowned — it never produces a `NotPresenting` error,
which does not exist in the code. -/
theorem C3_exitPresent_nonowner_behavior (s : WebVRState) (A D : Nat)
    (hnotown : mapFind s.presenting D ≠ some A) :
    (step s (.exitPresent A D true)).2.reply =
      [.unit (match mapFind s.presenting D, get_device s.service D with
              | some _, _ => .error busyErr
              | none, some _ => .ok ()
              | none, none => .error notFoundErr)] ∧
    (mapFind s.presenting D = none →
      mapFind (step s (.exitPresent A D true)).1.presenting D = none) := by
  rcases hf : mapFind s.presenting D with _ | B
  · by_cases hD : D ∈ s.service.devices
    · have hac : access_check s A D = .ok D := by
        rw [access_check_unowned s A D hf, if_pos hD]
      constructor
      · simp only [step, handle_exit_present]
        rw [hac]
        simp [hf, get_device, hD]
      · intro
        simp only [step, handle_exit_present]
        rw [hac]
        simp [mapFind_mapErase]
    · have hac : access_check s A D = .error notFoundErr := by
        rw [access_check_unowned s A D hf, if_neg hD]
      constructor
      · simp only [step, handle_exit_present]
        rw [hac]
        simp [hf, get_device, hD]
      · intro
        simp only [step, handle_exit_present]
        rw [hac]
        simpa using hf
  · have hBA : B ≠ A := fun h => hnotown (h ▸ hf)
    have hac : access_check s A D = .error busyErr :=
      access_check_busy s A D B hf hBA
    constructor
    · simp only [step, handle_exit_present]
      rw [hac]
      simp [hf]
    · intro hnone
      exact absurd hnone (by simp)

/-- Witness for the amended C3: context 7 never held device 1 (known,
unowned): the exit succeeds and leaves no ownership entry. -/
theorem C3_exitPresent_nonowner_behavior_witness :
    (step (initState testService) (.exitPresent 7 1 true)).2.reply
        = [.unit (.ok ())] ∧
    mapFind (step (initState testService) (.exitPresent 7 1 true)).1.presenting 1
        = none := by
  have h := C3_exitPresent_nonowner_behavior (initState testService) 7 1 (by decide)
  exact ⟨by simpa using h.1, h.2 rfl⟩

/-- C4 counterexample: starting from the initial state over an initialized
service, `RegisterContext(1)` schedules the poll loop, and
`UnregisterContext(1)` empties the registered-context set without touching
the flag — a reachable state where the polling flag is set although no
context is registered (the flag is only reset at the next poll tick). -/
theorem C4_poll_flag_counterexample :
    (run (initState testService)
        [.registerContext 1, .unregisterContext 1]).1.polling_events = true ∧
    (run (initState testService)
        [.registerContext 1, .unregisterContext 1]).1.contexts = [] := by
  decide

/-- C4 (amended): the polling flag may remain set while no context is
registered (after the last `UnregisterContext`, or after a
`GetVRDisplays` served with no context registered); it is re-synchronized
at every poll tick: processing `PollEvents` sets the flag — and replies to
the polling loop — exactly whether the registered-context set is
non-empty, so a scheduled poll loop stops at its first tick after the set
empties. -/
theorem C4_pollEvents_resyncs_flag (s : WebVRState) :
    ((step s .pollEvents).1.polling_events = true ↔ s.contexts ≠ []) ∧
    (step s .pollEvents).2.reply = [.poll (decide (0 < s.contexts.length))] := by
  refine ⟨?_, rfl⟩
  simp [step, poll_events, List.length_pos]

/-- C8: Exactly one reply.  Every message that carries a reply channel
(`PollEvents`, `GetVRDisplays`, `GetFrameData`, `ResetPose`,
`RequestPresent`, and `ExitPresent` when a sender is supplied) causes
exactly one send on that channel, on every control path, success or
error. -/
theorem C8_exactly_one_reply (s : WebVRState) (m : WebVRMsg)
    (h : hasReplyChannel m = true) :
    (step s m).2.reply.length = 1 := by
  cases m with
  | registerContext ctx => simp [hasReplyChannel] at h
  | unregisterContext ctx => simp [hasReplyChannel] at h
  | pollEvents => rfl
  | getVRDisplays => rfl
  | getFrameData c d n f =>
      simp only [step, handle_framedata]
      cases access_check s c d <;> rfl
  | resetPose c d =>
      simp only [step, handle_reset_pose]
      cases access_check s c d <;> rfl
  | requestPresent c d =>
      simp only [step, handle_request_present]
      cases access_check s c d <;> rfl
  | exitPresent c d hs =>
      simp only [hasReplyChannel] at h
      subst h
      simp only [step, handle_exit_present]
      cases access_check s c d <;> rfl
  | exit => simp [hasReplyChannel] at h

/-- Witness for C8: a `GetFrameData` request (here: one that errs with
`DeviceNotFound`) gets exactly one reply. -/
theorem C8_exactly_one_reply_witness :
    hasReplyChannel (WebVRMsg.getFrameData 1 999 10 1000) = true ∧
    (step (initState testService) (.getFrameData 1 999 10 1000)).2.reply.length = 1 :=
  ⟨rfl, C8_exactly_one_reply (initState testService) (.getFrameData 1 999 10 1000) rfl⟩

/-- Which messages are guarded by `access_check` (the four operations of
claim C10). -/
def isAccessOp : WebVRMsg → Bool
  | .getFrameData _ _ _ _ => true
  | .resetPose _ _ => true
  | .requestPresent _ _ => true
  | .exitPresent _ _ _ => true
  | _ => false

/-- C10: Atomicity of failed requests.  Whenever `GetFrameData`,
`ResetPose`, `RequestPresent` or `ExitPresent` replies with an error, the
whole actor state — registered contexts, ownership map, polling flag and
all device/service state — is exactly as before the message, and no event
is fanned out. -/
theorem C10_failed_request_atomicity (s : WebVRState) (m : WebVRMsg)
    (hop : isAccessOp m = true)
    (herr : (step s m).2.reply.any WebVRReply.isErr = true) :
    (step s m).1 = s ∧ (step s m).2.fanout = [] := by
  cases m with
  | registerContext ctx => simp [isAccessOp] at hop
  | unregisterContext ctx => simp [isAccessOp] at hop
  | pollEvents => simp [isAccessOp] at hop
  | getVRDisplays => simp [isAccessOp] at hop
  | getFrameData c d n f =>
      simp only [step, handle_framedata] at herr ⊢
      split at herr
      · next dd heq => simp [WebVRReply.isErr] at herr
      · next e heq => exact ⟨rfl, rfl⟩
  | resetPose c d =>
      simp only [step, handle_reset_pose] at herr ⊢
      split at herr
      · next dd heq => simp [WebVRReply.isErr] at herr
      · next e heq => exact ⟨rfl, rfl⟩
  | requestPresent c d =>
      simp only [step, handle_request_present] at herr ⊢
      split at herr
      · next dd heq => simp [WebVRReply.isErr] at herr
      · next e heq => exact ⟨rfl, rfl⟩
  | exitPresent c d hs =>
      simp only [step, handle_exit_present] at herr ⊢
      split at herr
      · next dd heq => cases hs <;> simp [WebVRReply.isErr] at herr
      · next e heq => exact ⟨rfl, rfl⟩
  | exit => simp [isAccessOp] at hop

/-- Witness for C10: `GetFrameData` on the unknown device 999 errs and
leaves the state untouched with no fan-out. -/
theorem C10_failed_request_atomicity_witness :
    isAccessOp (WebVRMsg.getFrameData 1 999 10 1000) = true ∧
    ((step (initState testService) (.getFrameData 1 999 10 1000)).2.reply.any
        WebVRReply.isErr = true) ∧
    (step (initState testService) (.getFrameData 1 999 10 1000)).1
        = initState testService ∧
    (step (initState testService) (.getFrameData 1 999 10 1000)).2.fanout = [] :=
  ⟨rfl, by decide,
   (C10_failed_request_atomicity (initState testService)
      (.getFrameData 1 999 10 1000) rfl (by decide)).1,
   (C10_failed_request_atomicity (initState testService)
      (.getFrameData 1 999 10 1000) rfl (by decide)).2⟩

/-- C9: Release enables hand-over.  If `ExitPresent(A, D)` succeeds, then
after any further messages among which no `RequestPresent` for `D` occurs,
a `RequestPresent(B, D)` succeeds — provided `D` is still known to the
registry — and `B` then owns `D`. -/
theorem C9_release_enables_handover
    (s : WebVRState) (A B D : Nat) (msgs : List WebVRMsg)
    (hexit : (step s (.exitPresent A D true)).2.reply = [.unit (.ok ())])
    (hmsgs : ∀ m ∈ msgs, ∀ C, m ≠ WebVRMsg.requestPresent C D)
    (hknown : D ∈ (run (step s (.exitPresent A D true)).1 msgs).1.service.devices) :
    (step (run (step s (.exitPresent A D true)).1 msgs).1
        (.requestPresent B D)).2.reply = [.unit (.ok ())] ∧
    mapFind (step (run (step s (.exitPresent A D true)).1 msgs).1
        (.requestPresent B D)).1.presenting D = some B := by
  have h1 : mapFind (step s (.exitPresent A D true)).1.presenting D = none :=
    exit_present_ok s A D hexit
  have h2 : mapFind (run (step s (.exitPresent A D true)).1 msgs).1.presenting D
      = none :=
    run_presenting_free _ msgs D h1 hmsgs
  set s2 := (run (step s (.exitPresent A D true)).1 msgs).1 with hs2
  have hac : access_check s2 B D = .ok D :=
    (access_check_ok_iff s2 B D D).2 ⟨rfl, hknown, Or.inl h2⟩
  refine ⟨?_, ?_⟩ <;> simp only [step, handle_request_present] <;> rw [hac] <;>
    simp [mapFind_mapInsert]

/-- Witness for C9 on the one-device service: context 1 presents on
device 1, exits, and context 2's request then succeeds. -/
theorem C9_release_enables_handover_witness :
    (step (run (step (step (initState testService) (.requestPresent 1 1)).1
        (.exitPresent 1 1 true)).1 []).1 (.requestPresent 2 1)).2.reply
        = [.unit (.ok ())] ∧
    mapFind (step (run (step (step (initState testService) (.requestPresent 1 1)).1
        (.exitPresent 1 1 true)).1 []).1 (.requestPresent 2 1)).1.presenting 1
        = some 2 :=
  C9_release_enables_handover (step (initState testService) (.requestPresent 1 1)).1
    1 2 1 [] (by decide) (by simp) (by decide)

/-- C2: Characterization of the access check in every reachable state:
it succeeds — returning the device handle `D` itself — iff the registry
knows `D` and the ownership map has no entry for `D` or its entry is the
calling context; it fails with `DeviceNotFound` when `D` is unknown and
with `DeviceBusy` when the entry names a different context; and the check
is the enforcement point for `GetFrameData`, `ResetPose`,
`RequestPresent` and `ExitPresent`: each replies exactly the check's error
when it fails, and takes its success path when it succeeds. -/
theorem C2_access_check_characterization
    (s : WebVRState) (C D near far : Nat) (hreach : Reachable s) :
    ((∃ d, access_check s C D = .ok d) ↔
       get_device s.service D = some D ∧
       (mapFind s.presenting D = none ∨ mapFind s.presenting D = some C)) ∧
    (∀ d, access_check s C D = .ok d → d = D) ∧
    (get_device s.service D = none → access_check s C D = .error notFoundErr) ∧
    (∀ A, mapFind s.presenting D = some A → A ≠ C →
        access_check s C D = .error busyErr) ∧
    (∀ e, access_check s C D = .error e →
       (step s (.getFrameData C D near far)).2.reply = [.frame (.error e)] ∧
       (step s (.resetPose C D)).2.reply = [.display (.error e)] ∧
       (step s (.requestPresent C D)).2.reply = [.unit (.error e)] ∧
       (step s (.exitPresent C D true)).2.reply = [.unit (.error e)]) ∧
    (∀ d, access_check s C D = .ok d →
       (step s (.getFrameData C D near far)).2.reply
           = [.frame (.ok (inmediate_frame_data s.service d near far))] ∧
       (step s (.resetPose C D)).2.reply
           = [.display (.ok (display_data (reset_pose s.service d) d))] ∧
       (step s (.requestPresent C D)).2.reply = [.unit (.ok ())] ∧
       (step s (.exitPresent C D true)).2.reply = [.unit (.ok ())]) := by
  refine ⟨?_, ?_, ?_, ?_, ?_, ?_⟩
  · constructor
    · rintro ⟨d, hd⟩
      obtain ⟨-, hmem, hor⟩ := (access_check_ok_iff s C D d).1 hd
      exact ⟨(get_device_some_iff s.service D).2 hmem, hor⟩
    · rintro ⟨hg, hor⟩
      exact ⟨D, (access_check_ok_iff s C D D).2
        ⟨rfl, (get_device_some_iff s.service D).1 hg, hor⟩⟩
  · intro d hd
    exact ((access_check_ok_iff s C D d).1 hd).1
  · intro hg
    have hmem : D ∉ s.service.devices := (get_device_none_iff s.service D).1 hg
    have hfree : mapFind s.presenting D = none := by
      rcases hfind : mapFind s.presenting D with _ | A
      · rfl
      · exact absurd (reachable_presentingKnown s hreach D A hfind) hmem
    rw [access_check_unowned s C D hfree, if_neg hmem]
  · intro A hfind hA
    exact access_check_busy s C D A hfind hA
  · intro e he
    refine ⟨?_, ?_, ?_, ?_⟩
    · simp only [step, handle_framedata]; rw [he]
    · simp only [step, handle_reset_pose]; rw [he]
    · simp only [step, handle_request_present]; rw [he]
    · simp only [step, handle_exit_present]; rw [he]; simp
  · intro d hd
    refine ⟨?_, ?_, ?_, ?_⟩
    · simp only [step, handle_framedata]; rw [hd]
    · simp only [step, handle_reset_pose]; rw [hd]
    · simp only [step, handle_request_present]; rw [hd]
    · simp only [step, handle_exit_present]; rw [hd]; simp

/-- Witness for C2, in the initial (hence reachable) state over the
one-device service: `GetFrameData` on the unknown device 999 replies the
access check's `DeviceNotFound` error. -/
theorem C2_access_check_characterization_witness :
    (step (initState testService) (.getFrameData 1 999 10 1000)).2.reply
        = [.frame (.error notFoundErr)] := by
  have h := C2_access_check_characterization (initState testService) 1 999 10 1000
    ⟨testService, [], rfl⟩
  exact (h.2.2.2.2.1 notFoundErr (by decide)).1

/-- With every reply channel alive, the dispatcher loop survives every
per-request error and reaches the end of any message sequence. -/
theorem runChan_live_isSome (s : WebVRState) (msgs : List (WebVRMsg × Bool)) :
    (∀ p ∈ msgs, p.2 = true) → (runChan s msgs).isSome = true := by
  induction msgs generalizing s with
  | nil => intro _; rfl
  | cons p rest ih =>
    intro hlive
    obtain ⟨m, ok⟩ := p
    have hok : ok = true := hlive (m, ok) (by simp)
    subst hok
    by_cases hex : m = WebVRMsg.exit
    · simp [runChan, hex]
    · have hs : stepChan s m true = some (step s m) := by simp [stepChan]
      have hrest := ih (step s m).1 (fun q hq => hlive q (List.mem_cons_of_mem _ hq))
      simp only [runChan, if_neg hex, hs]
      cases hro : runChan (step s m).1 rest with
      | none => rw [hro] at hrest; simp at hrest
      | some r => simp

/-- C7 counterexample: every handler replies with `sender.send(..).unwrap()`;
with the reply channel broken, serving `GetVRDisplays` panics and the
dispatcher worker terminates — the subsequent `RegisterContext` is never
processed — rather than logging the failure and continuing. -/
theorem C7_transport_failure_counterexample :
    runChan (initState testService)
        [(.getVRDisplays, false), (.registerContext 1, true)] = none := by
  rfl

/-- C7 (amended): a broken reply channel is not contained: for every
message carrying a reply channel, the failed send's unwrap panics and the
dispatcher worker terminates, abandoning the in-flight request and all
subsequent messages.  Per-request errors themselves never end the worker:
with live reply channels the loop survives any message sequence (up to an
explicit `Exit`). -/
theorem C7_transport_failure_behavior (s : WebVRState) (m : WebVRMsg)
    (msgs : List (WebVRMsg × Bool))
    (hm : hasReplyChannel m = true)
    (hlive : ∀ p ∈ msgs, p.2 = true) :
    stepChan s m false = none ∧ (runChan s msgs).isSome = true :=
  ⟨by simp [stepChan, hm], runChan_live_isSome s msgs hlive⟩

/-- Witness for the amended C7: a broken-channel `GetVRDisplays` kills the
worker; a live-channel sequence with an erroring request survives. -/
theorem C7_transport_failure_behavior_witness :
    stepChan (initState testService) .getVRDisplays false = none ∧
    (runChan (initState testService)
        [(.getFrameData 1 999 10 1000, true)]).isSome = true :=
  C7_transport_failure_behavior (initState testService) .getVRDisplays
    [(.getFrameData 1 999 10 1000, true)] rfl (by decide)

end WebVR
